import Mathlib

/-!
Verification of the FNE SDK client library (TypeScript) against its
natural-language specification.  The definitions below are a shallow
embedding of the repository's source:

* `src/validators/BaseValidator.ts` and `src/validators/InvoiceValidator.ts`
  (shipped inside `src/http/HttpClient.ts` in the snapshot): the rule-based
  validation engine over an error set keyed by field path;
* `src/http/HttpClient.ts`: the retrying request pipeline, together with
  the `Response` envelope class (bundled inside `src/models/RefundRequest.ts`
  in the snapshot), whose status classification the pipeline consumes;
* `src/auth/TokenManager.ts`: the TTL response cache;
* `src/models/Invoice.ts`, `src/models/InvoiceItem.ts`, `src/models/CustomTax.ts`:
  the document model and wire serialization;
* `src/utils/helpers.ts`: the phone / email / NCC validators;
* `src/services/InvoiceService.ts`: `signInvoice` (validate, then post).

JavaScript numbers are modelled as `Rat` (the claims only involve exact
values and order comparisons), JS strings as `String`, and the JS object
used as the error map as an insertion-ordered association list where
assigning to an existing key overwrites the value in place, which is
exactly the observable behaviour of `this.errors[field] = message` on a
plain JS object with non-index string keys.
-/

namespace FneSdk

/-! ## String helpers (JS semantics) -/

/-- Whitespace stripped by JS `trim` / matched by the regex class `\s`,
modelled as the common ASCII whitespace characters. -/
def jsSpace (c : Char) : Bool :=
  c = ' ' || c = '\t' || c = '\n' || c = '\r'

/-- Embedding of JS `String.prototype.trim`. -/
def trimStr (s : String) : String :=
  String.mk (((s.data.dropWhile jsSpace).reverse.dropWhile jsSpace).reverse)

/-- A value failing the `value.trim().length === 0` emptiness test used by
`BaseValidator.validateRequired` and the inline description / name checks. -/
def strBlank (s : String) : Bool :=
  (trimStr s).length == 0

/-- JS truthiness of a nullable string (`null`/`undefined` and `""` are falsy). -/
def strTruthy : Option String → Bool
  | none => false
  | some s => s ≠ ""

/-! ## Error set (`this.errors` of `BaseValidator`)

A JS plain object keyed by field paths.  Represented as an association
list in insertion order; writing to an existing key replaces the message
but keeps the key's position. -/

/-- The aggregated error set: field path to message, insertion ordered. -/
abbrev ErrorSet : Type := List (String × String)

/-- Embedding of `BaseValidator.addError`: `this.errors[field] = message`
on a JS object overwrites in place when the key exists and appends
otherwise. -/
def addError (st : ErrorSet) (field msg : String) : ErrorSet :=
  if st.any (fun p => p.1 == field) then
    st.map (fun p => if p.1 == field then (field, msg) else p)
  else
    st ++ [(field, msg)]

/-- Whether the error set has an entry for a field path. -/
def containsKey (st : ErrorSet) (k : String) : Bool :=
  st.any (fun p => p.1 == k)

/-- The message stored for a field path (`errors[field]`). -/
def getError (st : ErrorSet) (k : String) : Option String :=
  (st.find? (fun p => p.1 == k)).map Prod.snd

/-- The list of field paths of an error set, in insertion order. -/
def keys (st : ErrorSet) : List String :=
  st.map Prod.fst

/-! ## Field format validators (`src/utils/helpers.ts`) -/

/-- Embedding of `isValidNcc`: the regex `^\d{7}[A-Z]$`. -/
def isValidNcc (ncc : String) : Bool :=
  match ncc.data with
  | [a, b, c, d, e, f, g, h] =>
    [a, b, c, d, e, f, g].all Char.isDigit && h.isUpper
  | _ => false

/-- Embedding of `cleanPhoneNumber` / the cleaning step of `isValidPhone`:
`phone.replace(/[\s.-]/g, '')`. -/
def cleanPhone (phone : String) : String :=
  String.mk (phone.data.filter (fun c => !(jsSpace c || c = '.' || c = '-')))

/-- All characters are decimal digits (the regex class `\d`). -/
def allDigits (cs : List Char) : Bool :=
  cs.all Char.isDigit

/-- The local-number regex `^0?\d{8,10}$` of `isValidPhone`. -/
def localPhone (cs : List Char) : Bool :=
  (decide (8 ≤ cs.length) && decide (cs.length ≤ 10) && allDigits cs) ||
  (match cs with
   | '0' :: rest =>
     decide (8 ≤ rest.length) && decide (rest.length ≤ 10) && allDigits rest
   | _ => false)

/-- Embedding of `isValidPhone` (`src/utils/helpers.ts`): after cleaning,
a string starting with `+225` must match `^\+225\d{10}$`, a string
starting with `225` must match `^225\d{10}$`, and anything else must
match `^0?\d{8,10}$`. -/
def isValidPhone (phone : String) : Bool :=
  match (cleanPhone phone).data with
  | '+' :: '2' :: '2' :: '5' :: rest => decide (rest.length = 10) && allDigits rest
  | '2' :: '2' :: '5' :: rest => decide (rest.length = 10) && allDigits rest
  | cs => localPhone cs

/-- Splitting a character list at every occurrence of a separator. -/
def splitOnChar (sep : Char) : List Char → List (List Char)
  | [] => [[]]
  | c :: rest =>
    match splitOnChar sep rest with
    | [] => [[]]
    | h :: t => if c = sep then [] :: h :: t else (c :: h) :: t

/-- Embedding of `isValidEmail`: the regex `^[^\s@]+@[^\s@]+\.[^\s@]+$`.
A string matches iff it decomposes as `A ++ "@" ++ B ++ "." ++ C` with
`A`, `B`, `C` nonempty and free of whitespace and `@` — equivalently, the
string has exactly one `@` (the split below yields two parts), both parts
are whitespace-free, the part before it is nonempty, and the part after
it contains a `.` that is neither its first nor its last character. -/
def isValidEmail (email : String) : Bool :=
  match splitOnChar '@' email.data with
  | [localPart, domainPart] =>
    localPart.length > 0 &&
    localPart.all (fun c => !(jsSpace c)) &&
    domainPart.all (fun c => !(jsSpace c)) &&
    domainPart.tail.dropLast.contains '.'
  | _ => false

/-! ## Constants (`src/utils/constants.ts`) -/

def ALLOWED_INVOICE_TYPES : List String := ["sale", "purchase"]

def ALLOWED_PAYMENT_METHODS : List String :=
  ["cash", "card", "check", "mobile-money", "transfer", "deferred"]

def ALLOWED_TEMPLATES : List String := ["B2B", "B2C", "B2F", "B2G"]

def ALLOWED_TAX_TYPES : List String := ["TVA", "TVAB", "TVAC", "TVAD"]

def ALLOWED_CURRENCIES : List String :=
  ["XOF", "USD", "EUR", "GBP", "JPY", "CAD", "AUD", "CNH", "CHF", "HKD", "NZD"]

def INVOICE_TYPE_SALE : String := "sale"

def DEFAULT_RETRY_ATTEMPTS : Nat := 3

/-! ## Document model (`src/models/*.ts`)

JS numbers are `Rat`; nullable strings are `Option String` (with `""`
still falsy, see `strTruthy`). -/

/-- A custom tax entry (`CustomTax`): name and amount.  The class also
serves as the serialized `CustomTaxData` shape. -/
structure CustomTax where
  name : String
  amount : Rat
deriving DecidableEq

/-- Embedding of `CustomTax.toArray`: `{ name, amount }`. -/
def CustomTax.toArray (t : CustomTax) : CustomTax :=
  ⟨t.name, t.amount⟩

/-- A line item (`InvoiceItem`), with the fields read by the validator and
the serializer. -/
structure InvoiceItem where
  description : String
  quantity : Rat
  amount : Rat
  taxes : List String
  reference : Option String := none
  discount : Rat := 0
  measurementUnit : Option String := none
  customTaxes : List CustomTax := []
deriving DecidableEq

/-- An invoice document (`Invoice`), with the fields read by the validator
and the serializer.  Getters like `getClientNcc` return `this._x ?? null`,
so `Option` directly models the stored nullable value. -/
structure Invoice where
  invoiceType : String
  paymentMethod : String
  template : String
  pointOfSale : String
  establishment : String
  clientCompanyName : String
  clientPhone : String
  clientEmail : String
  clientNcc : Option String := none
  clientSellerName : Option String := none
  commercialMessage : Option String := none
  footer : Option String := none
  foreignCurrency : Option String := none
  foreignCurrencyRate : Rat := 0
  isRne : Bool := false
  rne : Option String := none
  discount : Rat := 0
  items : List InvoiceItem := []
  customTaxes : List CustomTax := []
deriving DecidableEq

/-! ## BaseValidator rule helpers (`src/validators/BaseValidator.ts`)

Each helper returns the updated error set together with the boolean the
source method returns. -/

/-- Embedding of `BaseValidator.validateRequired` for string fields: an
error is recorded when the trimmed value is empty.  (The `null`/`undefined`
branch of the source cannot fire here: every call site passes a required
string field of the document.) -/
def validateRequired (st : ErrorSet) (field value displayName : String) :
    ErrorSet × Bool :=
  if strBlank value then
    (addError st field ("Le champ " ++ displayName ++ " est requis"), false)
  else
    (st, true)

/-- Embedding of `BaseValidator.validateInArray` (for string values). -/
def validateInArray (st : ErrorSet) (field value : String)
    (allowedValues : List String) (displayName : String) : ErrorSet × Bool :=
  if allowedValues.contains value then
    (st, true)
  else
    (addError st field
      ("La valeur de " ++ displayName ++ " doit être parmi: " ++
        String.intercalate ", " allowedValues), false)

/-- Embedding of `BaseValidator.validatePhone`. -/
def validatePhone (st : ErrorSet) (field phone : String) : ErrorSet × Bool :=
  if isValidPhone phone then (st, true)
  else
    (addError st field
      "Le numéro de téléphone n\x27est pas valide (format: 8-10 chiffres)",
      false)

/-- Embedding of `BaseValidator.validateEmail`. -/
def validateEmail (st : ErrorSet) (field email : String) : ErrorSet × Bool :=
  if isValidEmail email then (st, true)
  else (addError st field "L\x27adresse email n\x27est pas valide", false)

/-- Embedding of `BaseValidator.validateNcc`. -/
def validateNcc (st : ErrorSet) (field ncc : String) : ErrorSet × Bool :=
  if isValidNcc ncc then (st, true)
  else
    (addError st field
      "Le NCC n\x27est pas valide (format: 7 chiffres + 1 lettre majuscule)",
      false)

/-! ## InvoiceValidator (`src/validators/InvoiceValidator.ts`)

Each phase threads the error set; the boolean results of the helpers gate
follow-up checks exactly as in the source. -/

/-- Embedding of `InvoiceValidator.validateBaseFields`. -/
def validateBaseFields (st : ErrorSet) (inv : Invoice) : ErrorSet :=
  let st := (validateRequired st "invoiceType" inv.invoiceType "invoiceType").1
  let st := (validateInArray st "invoiceType" inv.invoiceType
    ALLOWED_INVOICE_TYPES "type de facture").1
  let st := (validateRequired st "paymentMethod" inv.paymentMethod "paymentMethod").1
  let st := (validateInArray st "paymentMethod" inv.paymentMethod
    ALLOWED_PAYMENT_METHODS "méthode de paiement").1
  let st := (validateRequired st "template" inv.template "template").1
  let st := (validateInArray st "template" inv.template ALLOWED_TEMPLATES "template").1
  let st := (validateRequired st "pointOfSale" inv.pointOfSale "point de vente").1
  (validateRequired st "establishment" inv.establishment "établissement").1

/-- The `clientCompanyName` check of `validateClientFields`. -/
def checkCompanyName (inv : Invoice) (st : ErrorSet) : ErrorSet :=
  (validateRequired st "clientCompanyName" inv.clientCompanyName "nom du client").1

/-- The `clientPhone` checks of `validateClientFields`: the format check
runs only when the required check returned `true`. -/
def checkClientPhone (inv : Invoice) (st : ErrorSet) : ErrorSet :=
  if (validateRequired st "clientPhone" inv.clientPhone "téléphone").2 then
    (validatePhone (validateRequired st "clientPhone" inv.clientPhone "téléphone").1
      "clientPhone" inv.clientPhone).1
  else (validateRequired st "clientPhone" inv.clientPhone "téléphone").1

/-- The `clientEmail` checks of `validateClientFields`. -/
def checkClientEmail (inv : Invoice) (st : ErrorSet) : ErrorSet :=
  if (validateRequired st "clientEmail" inv.clientEmail "email").2 then
    (validateEmail (validateRequired st "clientEmail" inv.clientEmail "email").1
      "clientEmail" inv.clientEmail).1
  else (validateRequired st "clientEmail" inv.clientEmail "email").1

/-- Embedding of `InvoiceValidator.validateClientFields`: company name,
then phone, then email, in source order. -/
def validateClientFields (st : ErrorSet) (inv : Invoice) : ErrorSet :=
  checkClientEmail inv (checkClientPhone inv (checkCompanyName inv st))

/-- The B2B block of `validateTemplateRules`: a B2B document needs a
nonblank, well-formed NCC. -/
def checkB2BNcc (inv : Invoice) (st : ErrorSet) : ErrorSet :=
  if inv.template == "B2B" then
    if !strTruthy inv.clientNcc || strBlank (inv.clientNcc.getD "") then
      addError st "clientNcc" "Le NCC client est requis pour les factures B2B"
    else
      (validateNcc st "clientNcc" (inv.clientNcc.getD "")).1
  else st

/-- The currency half of the B2F block of `validateTemplateRules`:
`if (!currency) { addError } else { validateInArray }`. -/
def checkB2FCurrency (inv : Invoice) (st : ErrorSet) : ErrorSet :=
  if inv.template == "B2F" then
    if !strTruthy inv.foreignCurrency then
      addError st "foreignCurrency"
        "La devise étrangère est requise pour les factures B2F"
    else
      (validateInArray st "foreignCurrency" (inv.foreignCurrency.getD "")
        ALLOWED_CURRENCIES "devise étrangère").1
  else st

/-- The rate half of the B2F block of `validateTemplateRules`:
`if (currency && (rate === undefined || rate <= 0)) { addError }`. -/
def checkB2FRate (inv : Invoice) (st : ErrorSet) : ErrorSet :=
  if inv.template == "B2F" then
    if strTruthy inv.foreignCurrency && decide (inv.foreignCurrencyRate ≤ 0) then
      addError st "foreignCurrencyRate"
        "Le taux de change doit être supérieur à 0 pour les factures B2F"
    else st
  else st

/-- Embedding of `InvoiceValidator.validateTemplateRules`: the B2B block,
then both halves of the B2F block, in source order. -/
def validateTemplateRules (st : ErrorSet) (inv : Invoice) : ErrorSet :=
  checkB2FRate inv (checkB2FCurrency inv (checkB2BNcc inv st))

/-- One step of the per-tax-type loop inside `validateItem`. -/
def checkTaxType (pfx : String) (st : ErrorSet) (p : Nat × String) : ErrorSet :=
  if ALLOWED_TAX_TYPES.contains p.2 then st
  else
    addError st (pfx ++ ".taxes[" ++ toString p.1 ++ "]")
      ("Type de taxe invalide: " ++ p.2 ++ ". Valeurs acceptées: " ++
        String.intercalate ", " ALLOWED_TAX_TYPES)

/-- The name check of one custom-tax entry (`base` is
`items[i].customTaxes[` for item-level entries and `customTaxes[` for
document-level entries). -/
def checkCustomTaxName (base : String) (p : Nat × CustomTax) (st : ErrorSet) : ErrorSet :=
  if strBlank p.2.name then
    addError st (base ++ toString p.1 ++ "].name")
      "Le nom de la taxe personnalisée est requis"
  else st

/-- The amount check of one custom-tax entry. -/
def checkCustomTaxAmount (base : String) (p : Nat × CustomTax) (st : ErrorSet) : ErrorSet :=
  if p.2.amount < 0 then
    addError st (base ++ toString p.1 ++ "].amount")
      "Le montant de la taxe personnalisée doit être positif"
  else st

/-- One step of the custom-tax loop: name check then amount check. -/
def checkCustomTax (base : String) (st : ErrorSet) (p : Nat × CustomTax) : ErrorSet :=
  checkCustomTaxAmount base p (checkCustomTaxName base p st)

/-- The description check of `validateItem`. -/
def checkItemDescription (pfx : String) (item : InvoiceItem) (st : ErrorSet) : ErrorSet :=
  if strBlank item.description then
    addError st (pfx ++ ".description") "La description est requise"
  else st

/-- The quantity check of `validateItem`. -/
def checkItemQuantity (pfx : String) (item : InvoiceItem) (st : ErrorSet) : ErrorSet :=
  if item.quantity ≤ 0 then
    addError st (pfx ++ ".quantity") "La quantité doit être supérieure à 0"
  else st

/-- The amount check of `validateItem`. -/
def checkItemAmount (pfx : String) (item : InvoiceItem) (st : ErrorSet) : ErrorSet :=
  if item.amount ≤ 0 then
    addError st (pfx ++ ".amount") "Le montant doit être supérieur à 0"
  else st

/-- The tax-types block of `validateItem`: only sale documents need tax
types; each unknown code is reported at its own index. -/
def checkItemTaxes (pfx : String) (item : InvoiceItem) (invoiceType : String)
    (st : ErrorSet) : ErrorSet :=
  if invoiceType == INVOICE_TYPE_SALE then
    if item.taxes.length == 0 then
      addError st (pfx ++ ".taxes")
        "Au moins un type de taxe est requis pour les factures de vente"
    else
      item.taxes.enum.foldl (checkTaxType pfx) st
  else st

/-- The discount check of `validateItem`. -/
def checkItemDiscount (pfx : String) (item : InvoiceItem) (st : ErrorSet) : ErrorSet :=
  if item.discount < 0 || item.discount > 100 then
    addError st (pfx ++ ".discount") "La remise doit être entre 0 et 100"
  else st

/-- Embedding of `InvoiceValidator.validateItem`: the per-item checks in
source order, under the `items[index]` key prefix. -/
def validateItem (st : ErrorSet) (item : InvoiceItem) (index : Nat)
    (invoiceType : String) : ErrorSet :=
  let pfx := "items[" ++ toString index ++ "]"
  item.customTaxes.enum.foldl (checkCustomTax (pfx ++ ".customTaxes["))
    (checkItemDiscount pfx item
      (checkItemTaxes pfx item invoiceType
        (checkItemAmount pfx item
          (checkItemQuantity pfx item
            (checkItemDescription pfx item st)))))

/-- Embedding of `InvoiceValidator.validateItems`: with zero items a single
`items` error is recorded and the per-item checks are skipped. -/
def validateItems (st : ErrorSet) (inv : Invoice) : ErrorSet :=
  if inv.items.length == 0 then
    addError st "items" "La facture doit contenir au moins un article"
  else
    inv.items.enum.foldl (fun st p => validateItem st p.2 p.1 inv.invoiceType) st

/-- The stray-currency check of `validateOptionalFields`:
`if (currency && !ALLOWED_CURRENCIES.includes(currency))`. -/
def checkOptionalCurrency (inv : Invoice) (st : ErrorSet) : ErrorSet :=
  if strTruthy inv.foreignCurrency &&
      !ALLOWED_CURRENCIES.contains (inv.foreignCurrency.getD "") then
    addError st "foreignCurrency"
      ("Devise invalide: " ++ inv.foreignCurrency.getD "" ++
        ". Valeurs acceptées: " ++ String.intercalate ", " ALLOWED_CURRENCIES)
  else st

/-- The global-discount check of `validateOptionalFields`. -/
def checkGlobalDiscount (inv : Invoice) (st : ErrorSet) : ErrorSet :=
  if inv.discount < 0 || inv.discount > 100 then
    addError st "discount" "La remise globale doit être entre 0 et 100"
  else st

/-- The RNE-flag check of `validateOptionalFields`. -/
def checkRneFlag (inv : Invoice) (st : ErrorSet) : ErrorSet :=
  if inv.isRne && !strTruthy inv.rne then
    addError st "rne" "Le numéro RNE est requis si isRne est true"
  else st

/-- Embedding of `InvoiceValidator.validateOptionalFields`: stray currency,
global discount, RNE flag, then the document-level custom taxes. -/
def validateOptionalFields (st : ErrorSet) (inv : Invoice) : ErrorSet :=
  inv.customTaxes.enum.foldl (checkCustomTax "customTaxes[")
    (checkRneFlag inv (checkGlobalDiscount inv (checkOptionalCurrency inv st)))

/-- The five validation phases, run in source order from a given starting
error set. -/
def runValidationFrom (st : ErrorSet) (inv : Invoice) : ErrorSet :=
  validateOptionalFields
    (validateItems
      (validateTemplateRules
        (validateClientFields
          (validateBaseFields st inv) inv) inv) inv) inv

/-- Embedding of `BaseValidator.resetErrors`: `this.errors = {}`. -/
def resetErrors (_ : ErrorSet) : ErrorSet := []

/-- Embedding of `InvoiceValidator.validate` acting on the validator's
mutable `errors` state: reset, run all phases, then throw the aggregated
error set iff it is nonempty.  Returns the final state and the outcome. -/
def validateCall (state : ErrorSet) (inv : Invoice) :
    ErrorSet × Except ErrorSet Unit :=
  let st := runValidationFrom (resetErrors state) inv
  (st, if st.isEmpty then Except.ok () else Except.error st)

/-- The error set produced by one validation run of a document. -/
def runValidation (inv : Invoice) : ErrorSet :=
  runValidationFrom [] inv

/-- The outcome of `validate` on a fresh validator. -/
def validate (inv : Invoice) : Except ErrorSet Unit :=
  (validateCall [] inv).2

/-! ## Resilient request pipeline (`src/http/HttpClient.ts`)

One attempt of `executeRequest` either throws a `NetworkError`
(transport-level failure) or yields a `Response` with an HTTP status.
`handleResponse` classifies the status; the `request` loop retries per
the policy.  Backoff waits are recorded instead of slept. -/

/-- The outcome of one transport attempt. -/
inductive Attempt where
  | transportFail : Attempt
  | http : Nat → Attempt
deriving DecidableEq

/-- A raised error of the pipeline.  `networkError` covers every
`NetworkError` thrown by `executeRequest` (timeout, DNS, refused, reset,
TLS, generic — the sub-classification does not influence the control
flow); `connectionFailedFallback` is the `NetworkError.connectionFailed`
built at the end of `request` when the recorded last error is neither a
`NetworkError` nor an `ApiError`; it is itself a `NetworkError` in the
source. -/
inductive ReqError where
  | authError : ReqError
  | apiError : Nat → ReqError
  | networkError : ReqError
  | connectionFailedFallback : ReqError
deriving DecidableEq

/-- Embedding of `Response.isSuccess` (the `Response` envelope class is
bundled as the second document inside `src/models/RefundRequest.ts`, lines
158-160): `this._statusCode >= 200 && this._statusCode < 300`. -/
def isSuccessStatus (s : Nat) : Bool :=
  decide (200 ≤ s) && decide (s < 300)

/-- `ApiError.isClientError()`: 4xx. -/
def isClientErrorStatus (s : Nat) : Bool :=
  decide (400 ≤ s) && decide (s < 500)

/-- Embedding of `HttpClient.handleResponse`: 2xx passes through, 401
raises `AuthenticationError.unauthorized()`, anything else raises
`ApiError.fromResponse(status, body)`. -/
def handleResponse (s : Nat) : Except ReqError Nat :=
  if isSuccessStatus s then Except.ok s
  else if s == 401 then Except.error ReqError.authError
  else Except.error (ReqError.apiError s)

/-- Classification of one attempt: a transport failure surfaces as a
`NetworkError`; an HTTP response goes through `handleResponse`. -/
def classifyAttempt : Attempt → Except ReqError Nat
  | Attempt.transportFail => Except.error ReqError.networkError
  | Attempt.http s => handleResponse s

/-- The non-retry test of the `catch` block: `error instanceof
AuthenticationError || (error instanceof ApiError && error.isClientError())`. -/
def nonRetryable : ReqError → Bool
  | ReqError.authError => true
  | ReqError.apiError s => isClientErrorStatus s
  | _ => false

/-- Lines 98–102 of `HttpClient.request`: the recorded last error is
rethrown when it is a `NetworkError` or `ApiError`; otherwise a generic
`NetworkError.connectionFailed` is thrown. -/
def finalThrow : Option ReqError → ReqError
  | some ReqError.networkError => ReqError.networkError
  | some ReqError.connectionFailedFallback => ReqError.connectionFailedFallback
  | some (ReqError.apiError s) => ReqError.apiError s
  | _ => ReqError.connectionFailedFallback

deriving instance DecidableEq for Except

/-- Observable result of a `request` run: outcome, number of transport
attempts performed, and the backoff waits (in ms) in order. -/
structure RunResult where
  result : Except ReqError Nat
  attemptsMade : Nat
  waits : List Nat
deriving DecidableEq

/-- The retry loop of `HttpClient.request`, with the attempt outcomes
supplied by `outcomeAt` (1-based).  `fuel` counts the attempts still
allowed, `attempt` is the current attempt number, and `lastError`, `waits`
and `made` carry the loop state. -/
def requestAux (outcomeAt : Nat → Attempt) (retryAttempts : Nat) :
    Nat → Nat → Option ReqError → List Nat → Nat → RunResult
  | 0, _, lastError, waits, made =>
    ⟨Except.error (finalThrow lastError), made, waits⟩
  | fuel + 1, attempt, _, waits, made =>
    match classifyAttempt (outcomeAt attempt) with
    | Except.ok s => ⟨Except.ok s, made + 1, waits⟩
    | Except.error e =>
      if nonRetryable e then ⟨Except.error e, made + 1, waits⟩
      else
        requestAux outcomeAt retryAttempts fuel (attempt + 1) (some e)
          (if attempt < retryAttempts then waits ++ [2 ^ (attempt - 1) * 1000]
           else waits)
          (made + 1)

/-- Embedding of `HttpClient.request`: up to `retryAttempts` attempts
starting at attempt 1 with no recorded error. -/
def request (outcomeAt : Nat → Attempt) (retryAttempts : Nat) : RunResult :=
  requestAux outcomeAt retryAttempts retryAttempts 1 none [] 0

/-! ## Credential / cache manager (`src/auth/TokenManager.ts`)

`Date.now()` is passed explicitly (milliseconds).  The `Map` is an
association list with `Map.set` semantics (overwrite in place). -/

/-- One cache slot: `{ data, expiresAt }`. -/
structure CacheEntry (α : Type) where
  data : α
  expiresAt : Int
deriving DecidableEq

/-- The response cache of `TokenManager`. -/
abbrev Cache (α : Type) : Type := List (String × CacheEntry α)

/-- JS `Map.set`: overwrite in place when the key exists, append otherwise. -/
def cacheSet {α : Type} (c : Cache α) (key : String) (e : CacheEntry α) : Cache α :=
  if c.any (fun p => p.1 == key) then
    c.map (fun p => if p.1 == key then (key, e) else p)
  else
    c ++ [(key, e)]

/-- JS `Map.get`. -/
def cacheGet {α : Type} (c : Cache α) (key : String) : Option (CacheEntry α) :=
  (c.find? (fun p => p.1 == key)).map Prod.snd

/-- JS `Map.delete`. -/
def cacheDelete {α : Type} (c : Cache α) (key : String) : Cache α :=
  c.filter (fun p => !(p.1 == key))

/-- Embedding of `TokenManager.cacheResponse`: stores with absolute expiry
`Date.now() + ttlSeconds * 1000`. -/
def cacheResponse {α : Type} (c : Cache α) (key : String) (data : α)
    (ttlSeconds : Int) (now : Int) : Cache α :=
  cacheSet c key ⟨data, now + ttlSeconds * 1000⟩

/-- Embedding of `TokenManager.getCachedResponse`: returns `null` when the
key is absent; evicts and returns `null` when `Date.now()` is strictly
past the expiry; otherwise returns the stored data unchanged.  The pair
is (returned value, cache after the call). -/
def getCachedResponse {α : Type} (c : Cache α) (key : String) (now : Int) :
    Option α × Cache α :=
  match cacheGet c key with
  | none => (none, c)
  | some e =>
    if now > e.expiresAt then (none, cacheDelete c key)
    else (some e.data, c)

/-! ## Serialization (`Invoice.toArray`, `InvoiceItem.toArray`)

A `none` field models the key being absent from the serialized object. -/

/-- The wire shape of a line item (`InvoiceItemSerialized`). -/
structure InvoiceItemSerialized where
  description : String
  quantity : Rat
  amount : Rat
  taxes : List String
  reference : Option String := none
  discount : Option Rat := none
  measurementUnit : Option String := none
  customTaxes : Option (List CustomTax) := none
deriving DecidableEq

/-- Embedding of `InvoiceItem.toArray`: required keys always present;
`reference` / `measurementUnit` only when truthy, `discount` only when
strictly positive, `customTaxes` only when nonempty. -/
def InvoiceItem.toArray (it : InvoiceItem) : InvoiceItemSerialized :=
  { description := it.description
    quantity := it.quantity
    amount := it.amount
    taxes := it.taxes
    reference := if strTruthy it.reference then it.reference else none
    discount := if it.discount > 0 then some it.discount else none
    measurementUnit := if strTruthy it.measurementUnit then it.measurementUnit else none
    customTaxes :=
      if it.customTaxes.length > 0 then some (it.customTaxes.map CustomTax.toArray)
      else none }

/-- The wire shape of an invoice (`InvoiceSerialized`). -/
structure InvoiceSerialized where
  invoiceType : String
  paymentMethod : String
  template : String
  pointOfSale : String
  establishment : String
  clientCompanyName : String
  clientPhone : String
  clientEmail : String
  isRne : Bool
  items : List InvoiceItemSerialized
  clientNcc : Option String := none
  clientSellerName : Option String := none
  commercialMessage : Option String := none
  footer : Option String := none
  foreignCurrency : Option String := none
  foreignCurrencyRate : Option Rat := none
  rne : Option String := none
  discount : Option Rat := none
  customTaxes : Option (List CustomTax) := none
deriving DecidableEq

/-- Embedding of `Invoice.toArray`: required keys always present; optional
keys only when truthy / positive / nonempty — except the
`foreignCurrency` / `foreignCurrencyRate` pair, which is always emitted:
the stored values when the currency is truthy, `""` / `0` otherwise. -/
def Invoice.toArray (inv : Invoice) : InvoiceSerialized :=
  { invoiceType := inv.invoiceType
    paymentMethod := inv.paymentMethod
    template := inv.template
    pointOfSale := inv.pointOfSale
    establishment := inv.establishment
    clientCompanyName := inv.clientCompanyName
    clientPhone := inv.clientPhone
    clientEmail := inv.clientEmail
    isRne := inv.isRne
    items := inv.items.map InvoiceItem.toArray
    clientNcc := if strTruthy inv.clientNcc then inv.clientNcc else none
    clientSellerName := if strTruthy inv.clientSellerName then inv.clientSellerName else none
    commercialMessage := if strTruthy inv.commercialMessage then inv.commercialMessage else none
    footer := if strTruthy inv.footer then inv.footer else none
    foreignCurrency := if strTruthy inv.foreignCurrency then inv.foreignCurrency else some ""
    foreignCurrencyRate :=
      if strTruthy inv.foreignCurrency then some inv.foreignCurrencyRate else some 0
    rne := if strTruthy inv.rne then inv.rne else none
    discount := if inv.discount > 0 then some inv.discount else none
    customTaxes :=
      if inv.customTaxes.length > 0 then some (inv.customTaxes.map CustomTax.toArray)
      else none }

/-! ## InvoiceService.signInvoice (`src/services/InvoiceService.ts`)

`signInvoice` validates, then posts through the pipeline; a validation
throw propagates before any network attempt.  The second component counts
the transport attempts performed. -/

/-- A raised error of `signInvoice`. -/
inductive SignError where
  | validationError : ErrorSet → SignError
  | reqError : ReqError → SignError
deriving DecidableEq

/-- Embedding of `InvoiceService.signInvoice`: `this.validator.validate(invoice)`
first (propagating its throw with zero transport attempts), then
`this.httpClient.post(...)` which runs the retry pipeline. -/
def signInvoice (inv : Invoice) (outcomeAt : Nat → Attempt)
    (retryAttempts : Nat) : Except SignError Nat × Nat :=
  match validate inv with
  | Except.error errs => (Except.error (SignError.validationError errs), 0)
  | Except.ok _ =>
    let r := request outcomeAt retryAttempts
    match r.result with
    | Except.ok s => (Except.ok s, r.attemptsMade)
    | Except.error e => (Except.error (SignError.reqError e), r.attemptsMade)

/-! ## Specification predicates and concrete documents used by the claims -/

/-- The phone formats as the claim words them: after stripping, `+225`
followed by exactly 10 digits, or `225` followed by exactly 10 digits, or
a bare local number of 8 to 10 digits. -/
def phoneClaimSpec (phone : String) : Bool :=
  ((match (cleanPhone phone).data with
    | '+' :: '2' :: '2' :: '5' :: rest => decide (rest.length = 10) && allDigits rest
    | _ => false) ||
   (match (cleanPhone phone).data with
    | '2' :: '2' :: '5' :: rest => decide (rest.length = 10) && allDigits rest
    | _ => false)) ||
  (decide (8 ≤ (cleanPhone phone).data.length) &&
    decide ((cleanPhone phone).data.length ≤ 10) &&
    allDigits (cleanPhone phone).data)

/-- The amended phone specification: after stripping, a string starting
with `+225` is accepted iff exactly 10 digits follow; otherwise a string
starting with `225` is accepted iff exactly 10 digits follow; any other
string is accepted iff it is an optional leading `0` followed by 8 to 10
digits. -/
def phoneAmendedSpec (phone : String) : Bool :=
  match (cleanPhone phone).data with
  | '+' :: '2' :: '2' :: '5' :: rest => decide (rest.length = 10) && allDigits rest
  | '2' :: '2' :: '5' :: rest => decide (rest.length = 10) && allDigits rest
  | cs =>
    (decide (8 ≤ cs.length) && decide (cs.length ≤ 10) && allDigits cs) ||
    (match cs with
     | '0' :: rest =>
       decide (8 ≤ rest.length) && decide (rest.length ≤ 10) && allDigits rest
     | _ => false)

/-- A well-formed B2C sale document (it validates cleanly); the concrete
documents below are variations of it. -/
def invOkBase : Invoice :=
  { invoiceType := "sale", paymentMethod := "cash", template := "B2C",
    pointOfSale := "Magasin 1", establishment := "Etablissement 1",
    clientCompanyName := "ACME", clientPhone := "0102030405",
    clientEmail := "client@acme.ci",
    items := [{ description := "Produit X", quantity := 1, amount := 10000,
                taxes := ["TVA"] }] }

/-- A document whose invoice type is empty: both the required check and
the allowed-value check fail on the same key. -/
def invEmptyType : Invoice := { invOkBase with invoiceType := "" }

/-- A B2F document with an unknown currency and a zero exchange rate. -/
def invB2FBoth : Invoice :=
  { invOkBase with
    template := "B2F"
    foreignCurrency := some "ZZZ"
    foreignCurrencyRate := 0 }

/-- A B2F document with no foreign currency at all. -/
def invB2FMissing : Invoice := { invOkBase with template := "B2F" }

/-- A document with zero line items. -/
def invEmptyItems : Invoice := { invOkBase with items := [] }

/-- A document with a set foreign currency and exchange rate. -/
def invEUR : Invoice :=
  { invOkBase with
    foreignCurrency := some "EUR"
    foreignCurrencyRate := 655 }

/-! ## Error-set lemmas -/

theorem overwrite_fst (k m : String) (p : String × String) :
    (if p.1 == k then (k, m) else p).1 = p.1 := by
  split
  next h => exact (eq_of_beq h).symm
  next => rfl

theorem keys_addError_of_mem (st : ErrorSet) (k m : String)
    (h : containsKey st k = true) : keys (addError st k m) = keys st := by
  unfold containsKey at h
  unfold addError
  rw [if_pos h]
  unfold keys
  rw [List.map_map]
  exact List.map_congr_left (fun p _ => overwrite_fst k m p)

theorem keys_addError_of_not (st : ErrorSet) (k m : String)
    (h : containsKey st k = false) : keys (addError st k m) = keys st ++ [k] := by
  unfold containsKey at h
  unfold addError
  rw [if_neg (by simp [h])]
  unfold keys
  rw [List.map_append]
  rfl

theorem containsKey_eq_keys_any (st : ErrorSet) (k : String) :
    containsKey st k = (keys st).any (fun x => x == k) := by
  induction st with
  | nil => rfl
  | cons p t ih =>
    simp only [containsKey, keys, List.map_cons, List.any_cons] at ih ⊢
    rw [ih]

theorem not_mem_keys_of_not_containsKey {st : ErrorSet} {k : String}
    (h : containsKey st k = false) : k ∉ keys st := by
  intro hk
  rw [containsKey_eq_keys_any] at h
  have := List.any_eq_false.mp h k hk
  simp at this

theorem containsKey_addError_self (st : ErrorSet) (k m : String) :
    containsKey (addError st k m) k = true := by
  by_cases h : containsKey st k = true
  · rw [containsKey_eq_keys_any, keys_addError_of_mem st k m h,
      ← containsKey_eq_keys_any]
    exact h
  · rw [containsKey_eq_keys_any,
      keys_addError_of_not st k m (by simpa using h)]
    simp

theorem containsKey_addError_mono {st : ErrorSet} {j : String} (k m : String)
    (h : containsKey st j = true) : containsKey (addError st k m) j = true := by
  by_cases hc : containsKey st k = true
  · rw [containsKey_eq_keys_any, keys_addError_of_mem st k m hc,
      ← containsKey_eq_keys_any]
    exact h
  · rw [containsKey_eq_keys_any,
      keys_addError_of_not st k m (by simpa using hc), List.any_append]
    rw [containsKey_eq_keys_any] at h
    simp [h]

theorem nodup_keys_addError (st : ErrorSet) (k m : String)
    (h : (keys st).Nodup) : (keys (addError st k m)).Nodup := by
  by_cases hc : containsKey st k = true
  · rw [keys_addError_of_mem st k m hc]
    exact h
  · rw [keys_addError_of_not st k m (by simpa using hc)]
    refine List.Nodup.append h (List.nodup_singleton k) ?_
    intro a ha hb
    rw [List.mem_singleton] at hb
    exact not_mem_keys_of_not_containsKey (by simpa using hc) (hb ▸ ha)

theorem getError_addError_self (st : ErrorSet) (k m : String) :
    getError (addError st k m) k = some m := by
  unfold getError addError
  by_cases h : st.any (fun p => p.1 == k) = true
  · rw [if_pos h]
    induction st with
    | nil => simp at h
    | cons p t ih =>
      rw [List.map_cons]
      by_cases hp : (p.1 == k) = true
      · rw [if_pos hp, List.find?_cons_of_pos]
        · rfl
        · simp
      · rw [if_neg hp, List.find?_cons_of_neg]
        · apply ih
          simp only [List.any_cons, hp, Bool.false_or] at h
          exact h
        · exact hp
  · rw [if_neg h]
    have hf : st.any (fun p => p.1 == k) = false := by
      cases hb : st.any (fun p => p.1 == k)
      · rfl
      · exact absurd hb h
    rw [List.find?_append]
    have h1 : st.find? (fun p => p.1 == k) = none := by
      rw [List.find?_eq_none]
      exact List.any_eq_false.mp hf
    rw [h1, List.find?_cons_of_pos]
    · rfl
    · simp

/-! ## Items-related keys (for the zero-items claim)

A field path is items-related when it is `items` itself or an item-level
path `items[i]....` — i.e. when `items` is a prefix of the path. -/

/-- Whether a field path is the `items` key or an `items[i]...` key. -/
def itemsRelated (k : String) : Bool :=
  "items".data.isPrefixOf k.data

/-- The items-related entries of an error set, in order. -/
def keyFilter (st : ErrorSet) : ErrorSet :=
  st.filter (fun p => itemsRelated p.1)

theorem keyFilter_map_overwrite (k m : String) (h : itemsRelated k = false)
    (st : ErrorSet) :
    keyFilter (st.map (fun p => if p.1 == k then (k, m) else p)) = keyFilter st := by
  induction st with
  | nil => rfl
  | cons p t ih =>
    simp only [keyFilter, List.map_cons, List.filter_cons] at ih ⊢
    by_cases hp : (p.1 == k) = true
    · have hpk : p.1 = k := eq_of_beq hp
      rw [if_pos hp]
      simp only [hpk, h, Bool.false_eq_true, if_false, ih]
    · rw [if_neg hp]
      by_cases hr : itemsRelated p.1 = true
      · simp only [hr, if_true, ih]
      · simp only [Bool.not_eq_true] at hr
        simp only [hr, Bool.false_eq_true, if_false, ih]

theorem keyFilter_addError_of_not (st : ErrorSet) (k m : String)
    (h : itemsRelated k = false) : keyFilter (addError st k m) = keyFilter st := by
  unfold addError
  split
  · exact keyFilter_map_overwrite k m h st
  · unfold keyFilter
    rw [List.filter_append]
    simp [h]

theorem keyFilter_addError_items (st : ErrorSet) (m : String)
    (h : keyFilter st = []) :
    keyFilter (addError st "items" m) = [("items", m)] := by
  have hc : containsKey st "items" = false := by
    rw [containsKey_eq_keys_any]
    rw [List.any_eq_false]
    intro x hx
    simp only [keys, List.mem_map] at hx
    obtain ⟨p, hp, hpx⟩ := hx
    intro hbeq
    have hxk : x = "items" := by simpa using hbeq
    have hrel : itemsRelated p.1 = true := by
      rw [hpx, hxk]
      rfl
    have : p ∈ keyFilter st := by
      unfold keyFilter
      rw [List.mem_filter]
      exact ⟨hp, hrel⟩
    rw [h] at this
    simp at this
  unfold addError
  unfold containsKey at hc
  rw [if_neg (by simp [hc])]
  unfold keyFilter
  rw [List.filter_append, show keyFilter st = st.filter (fun p => itemsRelated p.1) from rfl] at *
  rw [h]
  rfl

/-! ## Generic preservation through the validator

Every validator step only ever calls `addError` on the threaded error
set, so any property closed under `addError` is preserved by every phase.
Instances: key membership (`containsKey st j = true`) and key uniqueness
(`(keys st).Nodup`). -/

/-- A property of error sets closed under `addError`. -/
def AddClosed (P : ErrorSet → Prop) : Prop :=
  ∀ st k m, P st → P (addError st k m)

theorem P_ite (P : ErrorSet → Prop) {c : Prop} [Decidable c] {a b : ErrorSet}
    (ha : P a) (hb : P b) : P (if c then a else b) := by
  split
  · exact ha
  · exact hb

theorem P_foldl {α : Type} (P : ErrorSet → Prop) (g : ErrorSet → α → ErrorSet)
    (hg : ∀ st x, P st → P (g st x)) :
    ∀ (l : List α) (st : ErrorSet), P st → P (l.foldl g st)
  | [], _, h => h
  | x :: t, st, h => P_foldl P g hg t (g st x) (hg st x h)

theorem P_validateRequired (P : ErrorSet → Prop) (hP : AddClosed P)
    (st : ErrorSet) (f v d : String) (h : P st) : P (validateRequired st f v d).1 := by
  unfold validateRequired
  split
  · exact hP st f _ h
  · exact h

theorem P_validateInArray (P : ErrorSet → Prop) (hP : AddClosed P)
    (st : ErrorSet) (f v : String) (l : List String) (d : String) (h : P st) :
    P (validateInArray st f v l d).1 := by
  unfold validateInArray
  split
  · exact h
  · exact hP st f _ h

theorem P_validatePhone (P : ErrorSet → Prop) (hP : AddClosed P)
    (st : ErrorSet) (f v : String) (h : P st) : P (validatePhone st f v).1 := by
  unfold validatePhone
  split
  · exact h
  · exact hP st f _ h

theorem P_validateEmail (P : ErrorSet → Prop) (hP : AddClosed P)
    (st : ErrorSet) (f v : String) (h : P st) : P (validateEmail st f v).1 := by
  unfold validateEmail
  split
  · exact h
  · exact hP st f _ h

theorem P_validateNcc (P : ErrorSet → Prop) (hP : AddClosed P)
    (st : ErrorSet) (f v : String) (h : P st) : P (validateNcc st f v).1 := by
  unfold validateNcc
  split
  · exact h
  · exact hP st f _ h

theorem P_checkTaxType (P : ErrorSet → Prop) (hP : AddClosed P)
    (pfx : String) (st : ErrorSet) (p : Nat × String) (h : P st) :
    P (checkTaxType pfx st p) := by
  unfold checkTaxType
  split
  · exact h
  · exact hP st _ _ h

theorem P_checkCustomTax (P : ErrorSet → Prop) (hP : AddClosed P)
    (base : String) (st : ErrorSet) (p : Nat × CustomTax) (h : P st) :
    P (checkCustomTax base st p) := by
  unfold checkCustomTax checkCustomTaxAmount checkCustomTaxName
  apply P_ite P
  · apply hP
    apply P_ite P
    · exact hP st _ _ h
    · exact h
  · apply P_ite P
    · exact hP st _ _ h
    · exact h

theorem P_validateBaseFields (P : ErrorSet → Prop) (hP : AddClosed P)
    (st : ErrorSet) (inv : Invoice) (h : P st) : P (validateBaseFields st inv) := by
  unfold validateBaseFields
  apply P_validateRequired P hP
  apply P_validateRequired P hP
  apply P_validateInArray P hP
  apply P_validateRequired P hP
  apply P_validateInArray P hP
  apply P_validateRequired P hP
  apply P_validateInArray P hP
  apply P_validateRequired P hP
  exact h

theorem P_checkCompanyName (P : ErrorSet → Prop) (hP : AddClosed P)
    (inv : Invoice) (st : ErrorSet) (h : P st) : P (checkCompanyName inv st) :=
  P_validateRequired P hP st _ _ _ h

theorem P_checkClientPhone (P : ErrorSet → Prop) (hP : AddClosed P)
    (inv : Invoice) (st : ErrorSet) (h : P st) : P (checkClientPhone inv st) := by
  unfold checkClientPhone
  apply P_ite P
  · exact P_validatePhone P hP _ _ _ (P_validateRequired P hP st _ _ _ h)
  · exact P_validateRequired P hP st _ _ _ h

theorem P_checkClientEmail (P : ErrorSet → Prop) (hP : AddClosed P)
    (inv : Invoice) (st : ErrorSet) (h : P st) : P (checkClientEmail inv st) := by
  unfold checkClientEmail
  apply P_ite P
  · exact P_validateEmail P hP _ _ _ (P_validateRequired P hP st _ _ _ h)
  · exact P_validateRequired P hP st _ _ _ h

theorem P_validateClientFields (P : ErrorSet → Prop) (hP : AddClosed P)
    (st : ErrorSet) (inv : Invoice) (h : P st) : P (validateClientFields st inv) :=
  P_checkClientEmail P hP inv _ (P_checkClientPhone P hP inv _
    (P_checkCompanyName P hP inv st h))

theorem P_checkB2BNcc (P : ErrorSet → Prop) (hP : AddClosed P)
    (inv : Invoice) (st : ErrorSet) (h : P st) : P (checkB2BNcc inv st) := by
  unfold checkB2BNcc
  apply P_ite P
  · apply P_ite P
    · exact hP st _ _ h
    · exact P_validateNcc P hP st _ _ h
  · exact h

theorem P_checkB2FCurrency (P : ErrorSet → Prop) (hP : AddClosed P)
    (inv : Invoice) (st : ErrorSet) (h : P st) : P (checkB2FCurrency inv st) := by
  unfold checkB2FCurrency
  apply P_ite P
  · apply P_ite P
    · exact hP st _ _ h
    · exact P_validateInArray P hP st _ _ _ _ h
  · exact h

theorem P_checkB2FRate (P : ErrorSet → Prop) (hP : AddClosed P)
    (inv : Invoice) (st : ErrorSet) (h : P st) : P (checkB2FRate inv st) := by
  unfold checkB2FRate
  apply P_ite P
  · apply P_ite P
    · exact hP st _ _ h
    · exact h
  · exact h

theorem P_validateTemplateRules (P : ErrorSet → Prop) (hP : AddClosed P)
    (st : ErrorSet) (inv : Invoice) (h : P st) : P (validateTemplateRules st inv) :=
  P_checkB2FRate P hP inv _ (P_checkB2FCurrency P hP inv _
    (P_checkB2BNcc P hP inv st h))

theorem P_checkItemDescription (P : ErrorSet → Prop) (hP : AddClosed P)
    (pfx : String) (item : InvoiceItem) (st : ErrorSet) (h : P st) :
    P (checkItemDescription pfx item st) := by
  unfold checkItemDescription
  apply P_ite P
  · exact hP st _ _ h
  · exact h

theorem P_checkItemQuantity (P : ErrorSet → Prop) (hP : AddClosed P)
    (pfx : String) (item : InvoiceItem) (st : ErrorSet) (h : P st) :
    P (checkItemQuantity pfx item st) := by
  unfold checkItemQuantity
  apply P_ite P
  · exact hP st _ _ h
  · exact h

theorem P_checkItemAmount (P : ErrorSet → Prop) (hP : AddClosed P)
    (pfx : String) (item : InvoiceItem) (st : ErrorSet) (h : P st) :
    P (checkItemAmount pfx item st) := by
  unfold checkItemAmount
  apply P_ite P
  · exact hP st _ _ h
  · exact h

theorem P_checkItemTaxes (P : ErrorSet → Prop) (hP : AddClosed P)
    (pfx : String) (item : InvoiceItem) (ty : String) (st : ErrorSet) (h : P st) :
    P (checkItemTaxes pfx item ty st) := by
  unfold checkItemTaxes
  apply P_ite P
  · apply P_ite P
    · exact hP st _ _ h
    · exact P_foldl P _ (fun st p hp => P_checkTaxType P hP pfx st p hp) _ st h
  · exact h

theorem P_checkItemDiscount (P : ErrorSet → Prop) (hP : AddClosed P)
    (pfx : String) (item : InvoiceItem) (st : ErrorSet) (h : P st) :
    P (checkItemDiscount pfx item st) := by
  unfold checkItemDiscount
  apply P_ite P
  · exact hP st _ _ h
  · exact h

theorem P_validateItem (P : ErrorSet → Prop) (hP : AddClosed P)
    (st : ErrorSet) (item : InvoiceItem) (index : Nat) (ty : String)
    (h : P st) : P (validateItem st item index ty) := by
  unfold validateItem
  apply P_foldl P _ (fun st p hp => P_checkCustomTax P hP _ st p hp)
  apply P_checkItemDiscount P hP
  apply P_checkItemTaxes P hP
  apply P_checkItemAmount P hP
  apply P_checkItemQuantity P hP
  apply P_checkItemDescription P hP
  exact h

theorem P_validateItems (P : ErrorSet → Prop) (hP : AddClosed P)
    (st : ErrorSet) (inv : Invoice) (h : P st) : P (validateItems st inv) := by
  unfold validateItems
  apply P_ite P
  · exact hP st _ _ h
  · exact P_foldl P _ (fun st p hp => P_validateItem P hP st p.2 p.1 _ hp) _ st h

theorem P_checkOptionalCurrency (P : ErrorSet → Prop) (hP : AddClosed P)
    (inv : Invoice) (st : ErrorSet) (h : P st) : P (checkOptionalCurrency inv st) := by
  unfold checkOptionalCurrency
  apply P_ite P
  · exact hP st _ _ h
  · exact h

theorem P_checkGlobalDiscount (P : ErrorSet → Prop) (hP : AddClosed P)
    (inv : Invoice) (st : ErrorSet) (h : P st) : P (checkGlobalDiscount inv st) := by
  unfold checkGlobalDiscount
  apply P_ite P
  · exact hP st _ _ h
  · exact h

theorem P_checkRneFlag (P : ErrorSet → Prop) (hP : AddClosed P)
    (inv : Invoice) (st : ErrorSet) (h : P st) : P (checkRneFlag inv st) := by
  unfold checkRneFlag
  apply P_ite P
  · exact hP st _ _ h
  · exact h

theorem P_validateOptionalFields (P : ErrorSet → Prop) (hP : AddClosed P)
    (st : ErrorSet) (inv : Invoice) (h : P st) : P (validateOptionalFields st inv) := by
  unfold validateOptionalFields
  apply P_foldl P _ (fun st p hp => P_checkCustomTax P hP _ st p hp)
  apply P_checkRneFlag P hP
  apply P_checkGlobalDiscount P hP
  apply P_checkOptionalCurrency P hP
  exact h

theorem P_runValidationFrom (P : ErrorSet → Prop) (hP : AddClosed P)
    (st : ErrorSet) (inv : Invoice) (h : P st) : P (runValidationFrom st inv) := by
  unfold runValidationFrom
  apply P_validateOptionalFields P hP
  apply P_validateItems P hP
  apply P_validateTemplateRules P hP
  apply P_validateClientFields P hP
  apply P_validateBaseFields P hP
  exact h

/-! ## keyFilter invariance of the non-item phases -/

theorem keyFilter_validateRequired (st : ErrorSet) (f v d : String)
    (h : itemsRelated f = false) :
    keyFilter (validateRequired st f v d).1 = keyFilter st := by
  unfold validateRequired
  split
  · exact keyFilter_addError_of_not st f _ h
  · rfl

theorem keyFilter_validateInArray (st : ErrorSet) (f v : String)
    (l : List String) (d : String) (h : itemsRelated f = false) :
    keyFilter (validateInArray st f v l d).1 = keyFilter st := by
  unfold validateInArray
  split
  · rfl
  · exact keyFilter_addError_of_not st f _ h

theorem keyFilter_validatePhone (st : ErrorSet) (f v : String)
    (h : itemsRelated f = false) :
    keyFilter (validatePhone st f v).1 = keyFilter st := by
  unfold validatePhone
  split
  · rfl
  · exact keyFilter_addError_of_not st f _ h

theorem keyFilter_validateEmail (st : ErrorSet) (f v : String)
    (h : itemsRelated f = false) :
    keyFilter (validateEmail st f v).1 = keyFilter st := by
  unfold validateEmail
  split
  · rfl
  · exact keyFilter_addError_of_not st f _ h

theorem keyFilter_validateNcc (st : ErrorSet) (f v : String)
    (h : itemsRelated f = false) :
    keyFilter (validateNcc st f v).1 = keyFilter st := by
  unfold validateNcc
  split
  · rfl
  · exact keyFilter_addError_of_not st f _ h

theorem itemsRelated_customKey (x y : String) :
    itemsRelated ("customTaxes[" ++ x ++ y) = false := by
  unfold itemsRelated
  rw [String.data_append, String.data_append]
  rw [show "customTaxes[".data = 'c' :: "ustomTaxes[".data from rfl]
  rw [List.cons_append, List.cons_append]
  rw [show "items".data = 'i' :: "tems".data from rfl]
  simp [List.isPrefixOf]

theorem keyFilter_checkCustomTax_doc (st : ErrorSet) (p : Nat × CustomTax) :
    keyFilter (checkCustomTax "customTaxes[" st p) = keyFilter st := by
  unfold checkCustomTax checkCustomTaxAmount checkCustomTaxName
  have h1 := itemsRelated_customKey (toString p.1) "].name"
  have h2 := itemsRelated_customKey (toString p.1) "].amount"
  split
  · rw [keyFilter_addError_of_not _ _ _ h2]
    split
    · exact keyFilter_addError_of_not _ _ _ h1
    · rfl
  · split
    · exact keyFilter_addError_of_not _ _ _ h1
    · rfl

theorem keyFilter_foldl_checkCustomTax_doc (l : List (Nat × CustomTax)) :
    ∀ st : ErrorSet,
      keyFilter (l.foldl (checkCustomTax "customTaxes[") st) = keyFilter st := by
  induction l with
  | nil => intro st; rfl
  | cons p t ih =>
    intro st
    rw [List.foldl_cons, ih, keyFilter_checkCustomTax_doc]

theorem keyFilter_checkCompanyName (inv : Invoice) (st : ErrorSet) :
    keyFilter (checkCompanyName inv st) = keyFilter st :=
  keyFilter_validateRequired st "clientCompanyName" inv.clientCompanyName
    "nom du client" (by decide)

theorem keyFilter_checkClientPhone (inv : Invoice) (st : ErrorSet) :
    keyFilter (checkClientPhone inv st) = keyFilter st := by
  unfold checkClientPhone
  split
  · rw [keyFilter_validatePhone _ "clientPhone" inv.clientPhone (by decide)]
    exact keyFilter_validateRequired st "clientPhone" inv.clientPhone "téléphone"
      (by decide)
  · exact keyFilter_validateRequired st "clientPhone" inv.clientPhone "téléphone"
      (by decide)

theorem keyFilter_checkClientEmail (inv : Invoice) (st : ErrorSet) :
    keyFilter (checkClientEmail inv st) = keyFilter st := by
  unfold checkClientEmail
  split
  · rw [keyFilter_validateEmail _ "clientEmail" inv.clientEmail (by decide)]
    exact keyFilter_validateRequired st "clientEmail" inv.clientEmail "email"
      (by decide)
  · exact keyFilter_validateRequired st "clientEmail" inv.clientEmail "email"
      (by decide)

theorem keyFilter_validateBaseFields (st : ErrorSet) (inv : Invoice) :
    keyFilter (validateBaseFields st inv) = keyFilter st := by
  unfold validateBaseFields
  rw [keyFilter_validateRequired _ "establishment" inv.establishment "établissement"
      (by decide),
    keyFilter_validateRequired _ "pointOfSale" inv.pointOfSale "point de vente"
      (by decide),
    keyFilter_validateInArray _ "template" inv.template ALLOWED_TEMPLATES "template"
      (by decide),
    keyFilter_validateRequired _ "template" inv.template "template" (by decide),
    keyFilter_validateInArray _ "paymentMethod" inv.paymentMethod
      ALLOWED_PAYMENT_METHODS "méthode de paiement" (by decide),
    keyFilter_validateRequired _ "paymentMethod" inv.paymentMethod "paymentMethod"
      (by decide),
    keyFilter_validateInArray _ "invoiceType" inv.invoiceType ALLOWED_INVOICE_TYPES
      "type de facture" (by decide),
    keyFilter_validateRequired _ "invoiceType" inv.invoiceType "invoiceType"
      (by decide)]

theorem keyFilter_validateClientFields (st : ErrorSet) (inv : Invoice) :
    keyFilter (validateClientFields st inv) = keyFilter st := by
  unfold validateClientFields
  rw [keyFilter_checkClientEmail, keyFilter_checkClientPhone,
    keyFilter_checkCompanyName]

theorem keyFilter_checkB2BNcc (inv : Invoice) (st : ErrorSet) :
    keyFilter (checkB2BNcc inv st) = keyFilter st := by
  unfold checkB2BNcc
  split
  · split
    · exact keyFilter_addError_of_not st "clientNcc" _ (by decide)
    · exact keyFilter_validateNcc st "clientNcc" _ (by decide)
  · rfl

theorem keyFilter_checkB2FCurrency (inv : Invoice) (st : ErrorSet) :
    keyFilter (checkB2FCurrency inv st) = keyFilter st := by
  unfold checkB2FCurrency
  split
  · split
    · exact keyFilter_addError_of_not st "foreignCurrency" _ (by decide)
    · exact keyFilter_validateInArray st "foreignCurrency" _ ALLOWED_CURRENCIES
        "devise étrangère" (by decide)
  · rfl

theorem keyFilter_checkB2FRate (inv : Invoice) (st : ErrorSet) :
    keyFilter (checkB2FRate inv st) = keyFilter st := by
  unfold checkB2FRate
  split
  · split
    · exact keyFilter_addError_of_not st "foreignCurrencyRate" _ (by decide)
    · rfl
  · rfl

theorem keyFilter_validateTemplateRules (st : ErrorSet) (inv : Invoice) :
    keyFilter (validateTemplateRules st inv) = keyFilter st := by
  unfold validateTemplateRules
  rw [keyFilter_checkB2FRate, keyFilter_checkB2FCurrency, keyFilter_checkB2BNcc]

theorem keyFilter_checkOptionalCurrency (inv : Invoice) (st : ErrorSet) :
    keyFilter (checkOptionalCurrency inv st) = keyFilter st := by
  unfold checkOptionalCurrency
  split
  · exact keyFilter_addError_of_not st "foreignCurrency" _ (by decide)
  · rfl

theorem keyFilter_checkGlobalDiscount (inv : Invoice) (st : ErrorSet) :
    keyFilter (checkGlobalDiscount inv st) = keyFilter st := by
  unfold checkGlobalDiscount
  split
  · exact keyFilter_addError_of_not st "discount" _ (by decide)
  · rfl

theorem keyFilter_checkRneFlag (inv : Invoice) (st : ErrorSet) :
    keyFilter (checkRneFlag inv st) = keyFilter st := by
  unfold checkRneFlag
  split
  · exact keyFilter_addError_of_not st "rne" _ (by decide)
  · rfl

theorem keyFilter_validateOptionalFields (st : ErrorSet) (inv : Invoice) :
    keyFilter (validateOptionalFields st inv) = keyFilter st := by
  unfold validateOptionalFields
  rw [keyFilter_foldl_checkCustomTax_doc, keyFilter_checkRneFlag,
    keyFilter_checkGlobalDiscount, keyFilter_checkOptionalCurrency]

theorem keyFilter_validateItems_empty (st : ErrorSet) (inv : Invoice)
    (h0 : inv.items = []) (h : keyFilter st = []) :
    keyFilter (validateItems st inv) =
      [("items", "La facture doit contenir au moins un article")] := by
  unfold validateItems
  rw [h0]
  rw [if_pos (by rfl)]
  exact keyFilter_addError_items st _ h

/-! ## Pipeline lemmas -/

theorem finalThrow_of_retryable {e : ReqError} (hr : nonRetryable e = false) :
    finalThrow (some e) = e := by
  cases e
  · simp [nonRetryable] at hr
  · rfl
  · rfl
  · rfl

theorem requestAux_exhaust (outcomeAt : Nat → Attempt) (n : Nat) :
    ∀ (fuel attempt : Nat) (lastErr : Option ReqError) (waits : List Nat) (made : Nat),
      1 ≤ fuel →
      (∀ k, attempt ≤ k → k < attempt + fuel →
        ∃ e, classifyAttempt (outcomeAt k) = Except.error e ∧ nonRetryable e = false) →
      ∃ e, classifyAttempt (outcomeAt (attempt + fuel - 1)) = Except.error e ∧
        (requestAux outcomeAt n fuel attempt lastErr waits made).result = Except.error e ∧
        (requestAux outcomeAt n fuel attempt lastErr waits made).attemptsMade = made + fuel := by
  intro fuel
  induction fuel with
  | zero =>
    intro attempt lastErr waits made h1
    exact absurd h1 (by omega)
  | succ f ih =>
    intro attempt lastErr waits made _ hall
    obtain ⟨e, he, hr⟩ := hall attempt (le_refl _) (by omega)
    cases f with
    | zero =>
      refine ⟨e, by simpa using he, ?_, ?_⟩
      · show (requestAux outcomeAt n 1 attempt lastErr waits made).result = Except.error e
        simp only [requestAux, he, hr, Bool.false_eq_true, if_false]
        rw [finalThrow_of_retryable hr]
      · show (requestAux outcomeAt n 1 attempt lastErr waits made).attemptsMade = made + 1
        simp only [requestAux, he, hr, Bool.false_eq_true, if_false]
    | succ f' =>
      have hall' : ∀ k, attempt + 1 ≤ k → k < (attempt + 1) + (f' + 1) →
          ∃ e, classifyAttempt (outcomeAt k) = Except.error e ∧ nonRetryable e = false := by
        intro k hk1 hk2
        exact hall k (by omega) (by omega)
      obtain ⟨e2, he2, hres2, hmade2⟩ := ih (attempt + 1) (some e)
        (if attempt < n then waits ++ [2 ^ (attempt - 1) * 1000] else waits)
        (made + 1) (by omega) hall'
      have hidx : attempt + 1 + (f' + 1) - 1 = attempt + (f' + 1 + 1) - 1 := by omega
      rw [hidx] at he2
      refine ⟨e2, he2, ?_, ?_⟩
      · show (requestAux outcomeAt n (f' + 1 + 1) attempt lastErr waits made).result =
          Except.error e2
        rw [show requestAux outcomeAt n (f' + 1 + 1) attempt lastErr waits made =
            requestAux outcomeAt n (f' + 1) (attempt + 1) (some e)
              (if attempt < n then waits ++ [2 ^ (attempt - 1) * 1000] else waits)
              (made + 1) from by
          simp only [requestAux, he, hr, Bool.false_eq_true, if_false]]
        exact hres2
      · show (requestAux outcomeAt n (f' + 1 + 1) attempt lastErr waits made).attemptsMade =
          made + (f' + 1 + 1)
        rw [show requestAux outcomeAt n (f' + 1 + 1) attempt lastErr waits made =
            requestAux outcomeAt n (f' + 1) (attempt + 1) (some e)
              (if attempt < n then waits ++ [2 ^ (attempt - 1) * 1000] else waits)
              (made + 1) from by
          simp only [requestAux, he, hr, Bool.false_eq_true, if_false]]
        rw [hmade2]
        omega

/-! ## Cache lemmas -/

theorem cacheGet_cacheSet_self {α : Type} (c : Cache α) (k : String) (e : CacheEntry α) :
    cacheGet (cacheSet c k e) k = some e := by
  unfold cacheGet cacheSet
  by_cases h : c.any (fun p => p.1 == k) = true
  · rw [if_pos h]
    induction c with
    | nil => simp at h
    | cons p t ih =>
      rw [List.map_cons]
      by_cases hp : (p.1 == k) = true
      · rw [if_pos hp, List.find?_cons_of_pos]
        · rfl
        · simp
      · rw [if_neg hp, List.find?_cons_of_neg]
        · apply ih
          simp only [List.any_cons, hp, Bool.false_or] at h
          exact h
        · exact hp
  · rw [if_neg h]
    have hf : c.any (fun p => p.1 == k) = false := by
      cases hb : c.any (fun p => p.1 == k)
      · rfl
      · exact absurd hb h
    rw [List.find?_append]
    have h1 : c.find? (fun p => p.1 == k) = none := by
      rw [List.find?_eq_none]
      exact List.any_eq_false.mp hf
    rw [h1, List.find?_cons_of_pos]
    · rfl
    · simp

/-! ## Bridging lemmas for validation outcomes -/

theorem containsKey_of_mem {st : ErrorSet} {p : String × String} (h : p ∈ st) :
    containsKey st p.1 = true := by
  unfold containsKey
  rw [List.any_eq_true]
  exact ⟨p, h, by simp⟩

theorem validate_error_of_containsKey {inv : Invoice} {j : String}
    (h : containsKey (runValidation inv) j = true) :
    validate inv = Except.error (runValidation inv) := by
  have hne : (runValidation inv).isEmpty = false := by
    cases hs : runValidation inv with
    | nil => rw [hs] at h; simp [containsKey] at h
    | cons q t => rfl
  show (runValidation inv,
    if (runValidation inv).isEmpty = true then Except.ok () else
      Except.error (runValidation inv)).2 = Except.error (runValidation inv)
  rw [hne]
  rfl

theorem addClosed_containsKey (j : String) :
    AddClosed (fun st => containsKey st j = true) :=
  fun _ k m h => containsKey_addError_mono k m h

theorem addClosed_nodupKeys : AddClosed (fun st => (keys st).Nodup) :=
  fun st k m h => nodup_keys_addError st k m h

/-! ## Claim-specific lemmas -/

theorem containsKey_checkB2FCurrency_missing (inv : Invoice) (st : ErrorSet)
    (hT : inv.template = "B2F") (hC : strTruthy inv.foreignCurrency = false) :
    containsKey (checkB2FCurrency inv st) "foreignCurrency" = true := by
  unfold checkB2FCurrency
  rw [hT]
  rw [if_pos (by rfl)]
  rw [hC]
  rw [if_pos (by rfl)]
  exact containsKey_addError_self st _ _

theorem containsKey_checkB2FRate_nonpos (inv : Invoice) (st : ErrorSet)
    (hT : inv.template = "B2F") (hC : strTruthy inv.foreignCurrency = true)
    (hR : inv.foreignCurrencyRate ≤ 0) :
    containsKey (checkB2FRate inv st) "foreignCurrencyRate" = true := by
  unfold checkB2FRate
  rw [hT]
  rw [if_pos (by rfl)]
  rw [hC, decide_eq_true hR]
  rw [if_pos (by rfl)]
  exact containsKey_addError_self st _ _

theorem containsKey_runValidation_b2f_missing (inv : Invoice)
    (hT : inv.template = "B2F") (hC : strTruthy inv.foreignCurrency = false) :
    containsKey (runValidation inv) "foreignCurrency" = true := by
  show containsKey (runValidationFrom [] inv) "foreignCurrency" = true
  unfold runValidationFrom validateTemplateRules
  apply P_validateOptionalFields (fun st => containsKey st "foreignCurrency" = true)
    (addClosed_containsKey "foreignCurrency")
  apply P_validateItems (fun st => containsKey st "foreignCurrency" = true)
    (addClosed_containsKey "foreignCurrency")
  apply P_checkB2FRate (fun st => containsKey st "foreignCurrency" = true)
    (addClosed_containsKey "foreignCurrency")
  exact containsKey_checkB2FCurrency_missing inv _ hT hC

theorem containsKey_runValidation_b2f_rate (inv : Invoice)
    (hT : inv.template = "B2F") (hC : strTruthy inv.foreignCurrency = true)
    (hR : inv.foreignCurrencyRate ≤ 0) :
    containsKey (runValidation inv) "foreignCurrencyRate" = true := by
  show containsKey (runValidationFrom [] inv) "foreignCurrencyRate" = true
  unfold runValidationFrom validateTemplateRules
  apply P_validateOptionalFields (fun st => containsKey st "foreignCurrencyRate" = true)
    (addClosed_containsKey "foreignCurrencyRate")
  apply P_validateItems (fun st => containsKey st "foreignCurrencyRate" = true)
    (addClosed_containsKey "foreignCurrencyRate")
  exact containsKey_checkB2FRate_nonpos inv _ hT hC hR

theorem keyFilter_runValidation_empty_items (inv : Invoice) (h0 : inv.items = []) :
    keyFilter (runValidation inv) =
      [("items", "La facture doit contenir au moins un article")] := by
  show keyFilter (runValidationFrom [] inv) = _
  unfold runValidationFrom
  rw [keyFilter_validateOptionalFields]
  rw [keyFilter_validateItems_empty _ inv h0
    (by rw [keyFilter_validateTemplateRules, keyFilter_validateClientFields,
          keyFilter_validateBaseFields]
        rfl)]

theorem getCachedResponse_cacheResponse {α : Type} (c : Cache α) (k : String)
    (v : α) (ttl now t1 : Int) :
    getCachedResponse (cacheResponse c k v ttl now) k t1 =
      if t1 > now + ttl * 1000 then
        (none, cacheDelete (cacheResponse c k v ttl now) k)
      else
        (some v, cacheResponse c k v ttl now) := by
  unfold getCachedResponse cacheResponse
  rw [cacheGet_cacheSet_self]

/-! ## The claims -/

/-- Claim C1: with `retryAttempts = 3`, the pipeline on outcomes
[transport-fail, transport-fail, 2xx] performs exactly the backoff waits
1000 ms then 2000 ms over 3 attempts and returns the success envelope; a
first-attempt 401 raises the `AuthenticationError` after exactly 1
attempt and no wait; a first-attempt 400 raises the client-error
`ApiError` after exactly 1 attempt and no wait; three 500s raise the
`ApiError` after exactly 3 attempts with waits 1000 ms and 2000 ms. -/
theorem C1_retry_policy :
    request (fun k => if 3 ≤ k then Attempt.http 200 else Attempt.transportFail) 3 =
      ⟨Except.ok 200, 3, [1000, 2000]⟩ ∧
    request (fun _ => Attempt.http 401) 3 = ⟨Except.error ReqError.authError, 1, []⟩ ∧
    request (fun _ => Attempt.http 400) 3 =
      ⟨Except.error (ReqError.apiError 400), 1, []⟩ ∧
    request (fun _ => Attempt.http 500) 3 =
      ⟨Except.error (ReqError.apiError 500), 3, [1000, 2000]⟩ := by
  refine ⟨by decide, by decide, by decide, by decide⟩

/-- Claim C5 (counterexample): the claim says the validator accepts a
phone exactly when, after stripping, it is `+225`+10 digits, `225`+10
digits, or a bare 8–10 digit local number.  The bare 8-digit number
`22512345` is accepted by that specification but rejected by the code:
because it starts with `225` the code forces the 13-character
`225`+10-digit format on it. -/
theorem C5_phone_counterexample :
    phoneClaimSpec "22512345" = true ∧ isValidPhone "22512345" = false := by
  decide

/-- Claim C5 (amended): after stripping spaces, dots and dashes, a string
starting with `+225` is accepted iff exactly 10 digits follow; otherwise a
string starting with `225` is accepted iff exactly 10 digits follow; any
other string is accepted iff it is an optional leading `0` followed by 8
to 10 digits. -/
theorem C5_phone_amended : ∀ s : String, isValidPhone s = phoneAmendedSpec s :=
  fun _ => rfl

/-- Claim C7: validation is idempotent — running `validate` a second time
on the same document with the same validator instance (whose `errors`
state is whatever the first run left behind) returns exactly the state
and outcome of the first run, because `validate` begins with
`resetErrors`. -/
theorem C7_validate_idempotent :
    ∀ (inv : Invoice) (prior : ErrorSet),
      validateCall (validateCall prior inv).1 inv = validateCall prior inv :=
  fun _ _ => rfl

/-- Claim C8: fail-fast — whenever validation raises, `signInvoice`
performs zero transport attempts and propagates the `ValidationError`. -/
theorem C8_fail_fast (inv : Invoice) (outcomeAt : Nat → Attempt)
    (retryAttempts : Nat) (errs : ErrorSet)
    (h : validate inv = Except.error errs) :
    signInvoice inv outcomeAt retryAttempts =
      (Except.error (SignError.validationError errs), 0) := by
  unfold signInvoice
  rw [h]

/-- Witness for C8 at the zero-item document: validation fails concretely
and `signInvoice` performs zero transport attempts. -/
theorem C8_fail_fast_witness :
    signInvoice invEmptyItems (fun _ => Attempt.http 200) 3 =
      (Except.error (SignError.validationError (runValidation invEmptyItems)), 0) :=
  C8_fail_fast invEmptyItems (fun _ => Attempt.http 200) 3
    (runValidation invEmptyItems) (by decide)

/-- Claim C2: for every B2F document, a missing (falsy) foreign currency
puts an error under the key `foreignCurrency` in the raised error set; a
present currency with a non-positive exchange rate puts an error under
`foreignCurrencyRate`; and on the concrete B2F document with currency
`ZZZ` and rate 0 both keys are present in one error set. -/
theorem C2_b2f_currency_rules :
    (∀ inv : Invoice, inv.template = "B2F" →
      strTruthy inv.foreignCurrency = false →
      containsKey (runValidation inv) "foreignCurrency" = true ∧
      validate inv = Except.error (runValidation inv)) ∧
    (∀ inv : Invoice, inv.template = "B2F" →
      strTruthy inv.foreignCurrency = true →
      inv.foreignCurrencyRate ≤ 0 →
      containsKey (runValidation inv) "foreignCurrencyRate" = true ∧
      validate inv = Except.error (runValidation inv)) ∧
    (containsKey (runValidation invB2FBoth) "foreignCurrency" = true ∧
     containsKey (runValidation invB2FBoth) "foreignCurrencyRate" = true) := by
  refine ⟨?_, ?_, by decide, by decide⟩
  · intro inv hT hC
    have hk := containsKey_runValidation_b2f_missing inv hT hC
    exact ⟨hk, validate_error_of_containsKey hk⟩
  · intro inv hT hC hR
    have hk := containsKey_runValidation_b2f_rate inv hT hC hR
    exact ⟨hk, validate_error_of_containsKey hk⟩

/-- Witness for C2: both universal parts applied to concrete B2F
documents (missing currency; currency `ZZZ` with rate 0). -/
theorem C2_b2f_currency_rules_witness :
    containsKey (runValidation invB2FMissing) "foreignCurrency" = true ∧
    validate invB2FMissing = Except.error (runValidation invB2FMissing) ∧
    containsKey (runValidation invB2FBoth) "foreignCurrencyRate" = true := by
  refine ⟨(C2_b2f_currency_rules.1 invB2FMissing rfl rfl).1,
    (C2_b2f_currency_rules.1 invB2FMissing rfl rfl).2,
    (C2_b2f_currency_rules.2.1 invB2FBoth rfl rfl (by decide)).1⟩

/-- Claim C3 (counterexample): the claim says a value stored with
`ttlSeconds = 0` is expired on the next `get` at any later-or-equal time;
but a `get` at exactly the store timestamp still returns the value,
because eviction requires `Date.now()` to be strictly greater than the
expiry. -/
theorem C3_cache_ttl_counterexample :
    (getCachedResponse (cacheResponse ([] : Cache Nat) "token" 7 0 1000)
      "token" 1000).1 = some 7 := by
  decide

/-- Claim C3 (amended): a value stored with `ttlSeconds = 0` is expired on
any `get` at a strictly later time (it returns null and evicts the
entry), while a `get` at exactly the store timestamp still returns the
value; a value stored with `ttlSeconds = 3600` is returned unchanged
while the current time is at most the absolute expiry and is evicted
(null is returned) once the current time strictly exceeds it. -/
theorem C3_cache_ttl_amended {α : Type} (c : Cache α) (k : String) (v : α)
    (t0 t1 : Int) :
    (t0 < t1 →
      getCachedResponse (cacheResponse c k v 0 t0) k t1 =
        (none, cacheDelete (cacheResponse c k v 0 t0) k)) ∧
    (getCachedResponse (cacheResponse c k v 0 t0) k t0).1 = some v ∧
    (t1 ≤ t0 + 3600 * 1000 →
      getCachedResponse (cacheResponse c k v 3600 t0) k t1 =
        (some v, cacheResponse c k v 3600 t0)) ∧
    (t0 + 3600 * 1000 < t1 →
      getCachedResponse (cacheResponse c k v 3600 t0) k t1 =
        (none, cacheDelete (cacheResponse c k v 3600 t0) k)) := by
  refine ⟨?_, ?_, ?_, ?_⟩
  · intro h
    rw [getCachedResponse_cacheResponse, if_pos (by omega)]
  · rw [getCachedResponse_cacheResponse, if_neg (by omega)]
  · intro h
    rw [getCachedResponse_cacheResponse, if_neg (by omega)]
  · intro h
    rw [getCachedResponse_cacheResponse, if_pos (by omega)]

/-- Witness for C3 (amended) at concrete times: store at 1000 with ttl 0,
get at 1001 evicts; get at 1000 still returns 7; store at 0 with ttl
3600, get at 3600000 returns 7 and get at 3600001 evicts. -/
theorem C3_cache_ttl_amended_witness :
    getCachedResponse (cacheResponse ([] : Cache Nat) "token" 7 0 1000)
      "token" 1001 =
      (none, cacheDelete (cacheResponse ([] : Cache Nat) "token" 7 0 1000) "token") ∧
    (getCachedResponse (cacheResponse ([] : Cache Nat) "token" 7 0 1000)
      "token" 1000).1 = some 7 ∧
    getCachedResponse (cacheResponse ([] : Cache Nat) "token" 7 3600 0)
      "token" 3600000 =
      (some 7, cacheResponse ([] : Cache Nat) "token" 7 3600 0) ∧
    getCachedResponse (cacheResponse ([] : Cache Nat) "token" 7 3600 0)
      "token" 3600001 =
      (none, cacheDelete (cacheResponse ([] : Cache Nat) "token" 7 3600 0) "token") := by
  have h := C3_cache_ttl_amended ([] : Cache Nat) "token" 7 1000 1001
  have h2 := C3_cache_ttl_amended ([] : Cache Nat) "token" 7 0 3600000
  have h3 := C3_cache_ttl_amended ([] : Cache Nat) "token" 7 0 3600001
  exact ⟨h.1 (by decide), h.2.1, h2.2.2.1 (by decide), h3.2.2.2 (by decide)⟩

/-- Claim C4: a document with zero line items fails validation with an
error set whose items-related entries are exactly the single `items`
entry — in particular there is no `items[i].field` entry — whatever the
other fields are. -/
theorem C4_empty_items (inv : Invoice) (h0 : inv.items = []) :
    keyFilter (runValidation inv) =
      [("items", "La facture doit contenir au moins un article")] ∧
    validate inv = Except.error (runValidation inv) := by
  have hkf := keyFilter_runValidation_empty_items inv h0
  refine ⟨hkf, ?_⟩
  have hmem : ("items", "La facture doit contenir au moins un article") ∈
      keyFilter (runValidation inv) := by
    rw [hkf]
    exact List.mem_singleton.mpr rfl
  exact validate_error_of_containsKey (containsKey_of_mem (List.mem_of_mem_filter hmem))

/-- Witness for C4 at a concrete zero-item document. -/
theorem C4_empty_items_witness :
    keyFilter (runValidation invEmptyItems) =
      [("items", "La facture doit contenir au moins un article")] ∧
    validate invEmptyItems = Except.error (runValidation invEmptyItems) :=
  C4_empty_items invEmptyItems rfl

/-- Claim C6: an item with discount 10 serializes with `discount = 10`; a
custom tax `{DTD, 1000}` on an item appears in its serialized
`customTaxes`; an item or document with discount 0 has no `discount` key;
and the serialized document always carries the `foreignCurrency` /
`foreignCurrencyRate` pair — the stored values when a currency is set,
`""` / `0` when unset. -/
theorem C6_serialization :
    (∀ it : InvoiceItem, it.discount = 10 →
      (InvoiceItem.toArray it).discount = some 10) ∧
    (∀ it : InvoiceItem, (⟨"DTD", 1000⟩ : CustomTax) ∈ it.customTaxes →
      ∃ l, (InvoiceItem.toArray it).customTaxes = some l ∧
        (⟨"DTD", 1000⟩ : CustomTax) ∈ l) ∧
    (∀ it : InvoiceItem, it.discount = 0 →
      (InvoiceItem.toArray it).discount = none) ∧
    (∀ inv : Invoice, inv.discount = 0 → (Invoice.toArray inv).discount = none) ∧
    (∀ inv : Invoice,
      (Invoice.toArray inv).foreignCurrency.isSome = true ∧
      (Invoice.toArray inv).foreignCurrencyRate.isSome = true ∧
      (strTruthy inv.foreignCurrency = true →
        (Invoice.toArray inv).foreignCurrency = inv.foreignCurrency ∧
        (Invoice.toArray inv).foreignCurrencyRate = some inv.foreignCurrencyRate) ∧
      (strTruthy inv.foreignCurrency = false →
        (Invoice.toArray inv).foreignCurrency = some "" ∧
        (Invoice.toArray inv).foreignCurrencyRate = some 0)) := by
  refine ⟨?_, ?_, ?_, ?_, ?_⟩
  · intro it h
    show (if it.discount > 0 then some it.discount else none) = some 10
    rw [h, if_pos (by norm_num)]
  · intro it hm
    refine ⟨it.customTaxes.map CustomTax.toArray, ?_,
      List.mem_map_of_mem CustomTax.toArray hm⟩
    show (if it.customTaxes.length > 0 then
        some (it.customTaxes.map CustomTax.toArray) else none) = _
    rw [if_pos (List.length_pos.mpr (List.ne_nil_of_mem hm))]
  · intro it h
    show (if it.discount > 0 then some it.discount else none) = none
    rw [h, if_neg (by norm_num)]
  · intro inv h
    show (if inv.discount > 0 then some inv.discount else none) = none
    rw [h, if_neg (by norm_num)]
  · intro inv
    have hfc : (Invoice.toArray inv).foreignCurrency =
        (if strTruthy inv.foreignCurrency = true then inv.foreignCurrency
         else some "") := rfl
    have hfr : (Invoice.toArray inv).foreignCurrencyRate =
        (if strTruthy inv.foreignCurrency = true then some inv.foreignCurrencyRate
         else some 0) := rfl
    refine ⟨?_, ?_, ?_, ?_⟩
    · rw [hfc]
      split
      next h =>
        cases hfc2 : inv.foreignCurrency with
        | none => rw [hfc2] at h; simp [strTruthy] at h
        | some s => rfl
      next => rfl
    · rw [hfr]
      split
      next => rfl
      next => rfl
    · intro h
      rw [hfc, hfr, if_pos h, if_pos h]
      exact ⟨rfl, rfl⟩
    · intro h
      rw [hfc, hfr, if_neg (by simp [h]), if_neg (by simp [h])]
      exact ⟨rfl, rfl⟩

/-- Witness for C6 at concrete values: an item with discount 10 and the
custom tax `{DTD, 1000}`, an item and a document with discount 0, and a
document with currency `EUR` at rate 655 against one with no currency. -/
theorem C6_serialization_witness :
    (InvoiceItem.toArray
      { description := "X", quantity := 1, amount := 100, taxes := ["TVA"],
        discount := 10, customTaxes := [⟨"DTD", 1000⟩] }).discount = some 10 ∧
    (∃ l, (InvoiceItem.toArray
      { description := "X", quantity := 1, amount := 100, taxes := ["TVA"],
        discount := 10, customTaxes := [⟨"DTD", 1000⟩] }).customTaxes = some l ∧
      (⟨"DTD", 1000⟩ : CustomTax) ∈ l) ∧
    (InvoiceItem.toArray
      { description := "X", quantity := 1, amount := 100,
        taxes := ["TVA"] }).discount = none ∧
    (Invoice.toArray invOkBase).discount = none ∧
    (Invoice.toArray invOkBase).foreignCurrency = some "" ∧
    (Invoice.toArray invOkBase).foreignCurrencyRate = some 0 ∧
    (Invoice.toArray invEUR).foreignCurrency = some "EUR" ∧
    (Invoice.toArray invEUR).foreignCurrencyRate = some 655 := by
  refine ⟨C6_serialization.1 _ rfl, C6_serialization.2.1 _ (by decide),
    C6_serialization.2.2.1 _ rfl, C6_serialization.2.2.2.1 invOkBase rfl,
    ((C6_serialization.2.2.2.2 invOkBase).2.2.2 rfl).1,
    ((C6_serialization.2.2.2.2 invOkBase).2.2.2 rfl).2,
    ((C6_serialization.2.2.2.2 invEUR).2.2.1 rfl).1,
    ((C6_serialization.2.2.2.2 invEUR).2.2.1 rfl).2⟩

/-- Claim C9: when the attempt budget is at least 1 and every attempt
fails with a retryable (transport or non-auth, non-client) error, the
pipeline raises exactly the classified failure of the final attempt after
exactly `n` attempts; and when no classified failure was recorded (a zero
attempt budget) or the recorded failure is not a `NetworkError` /
`ApiError` instance, the generic connection-failed `NetworkError` is
raised instead. -/
theorem C9_exhausted_raises_last (outcomeAt : Nat → Attempt) (n : Nat)
    (hn : 1 ≤ n)
    (hall : ∀ k, 1 ≤ k → k ≤ n →
      ∃ e, classifyAttempt (outcomeAt k) = Except.error e ∧ nonRetryable e = false) :
    (∃ e, classifyAttempt (outcomeAt n) = Except.error e ∧
      (request outcomeAt n).result = Except.error e ∧
      (request outcomeAt n).attemptsMade = n) ∧
    (request outcomeAt 0).result = Except.error ReqError.connectionFailedFallback ∧
    finalThrow none = ReqError.connectionFailedFallback ∧
    finalThrow (some ReqError.authError) = ReqError.connectionFailedFallback := by
  refine ⟨?_, rfl, rfl, rfl⟩
  have h := requestAux_exhaust outcomeAt n n 1 none [] 0 hn
    (fun k hk1 hk2 => hall k hk1 (by omega))
  obtain ⟨e, he, hres, hmade⟩ := h
  have hidx : 1 + n - 1 = n := by omega
  rw [hidx] at he
  refine ⟨e, he, hres, ?_⟩
  show (requestAux outcomeAt n n 1 none [] 0).attemptsMade = n
  rw [hmade]
  omega

/-- Witness for C9: two transport failures with a budget of 2 raise the
transport `NetworkError` after exactly 2 attempts. -/
theorem C9_exhausted_raises_last_witness :
    (∃ e, classifyAttempt ((fun _ => Attempt.transportFail) 2) = Except.error e ∧
      (request (fun _ => Attempt.transportFail) 2).result = Except.error e ∧
      (request (fun _ => Attempt.transportFail) 2).attemptsMade = 2) ∧
    (request (fun _ => Attempt.transportFail) 0).result =
      Except.error ReqError.connectionFailedFallback ∧
    finalThrow none = ReqError.connectionFailedFallback ∧
    finalThrow (some ReqError.authError) = ReqError.connectionFailedFallback :=
  C9_exhausted_raises_last (fun _ => Attempt.transportFail) 2 (by decide)
    (fun _ _ _ => ⟨ReqError.networkError, rfl, rfl⟩)

/-- Claim C10: the error set maps every field path to at most one message
(its key list has no duplicates after any validation run); writing a
message for an existing key overwrites the stored message, so the last
write wins; and concretely, an empty invoice type fails both the required
check and the allowed-value check and the final error set holds only the
later, allowed-value message under `invoiceType`. -/
theorem C10_error_overwrite :
    (∀ inv : Invoice, (keys (runValidation inv)).Nodup) ∧
    (∀ (st : ErrorSet) (k m : String), getError (addError st k m) k = some m) ∧
    getError (runValidation invEmptyType) "invoiceType" =
      some "La valeur de type de facture doit être parmi: sale, purchase" := by
  refine ⟨?_, getError_addError_self, by decide⟩
  intro inv
  exact P_runValidationFrom (fun st => (keys st).Nodup) addClosed_nodupKeys []
    inv List.nodup_nil

end FneSdk
